import Mathlib

/-! The ResourcePool proxy of `object/resource_pool.go`.

A shallow embedding of the client-side proxy for the managed object type
`ResourcePool`.  Every method of the proxy builds one request structure, hands
it to one remote call and wraps the answer in a local handle.

Conventions of the embedding:

* Go packages become namespaces (`types`, `mo`, `methods`, `fmt`); the package
  `object` itself is the enclosing namespace.
* A Go result `(T, error)` is a pair `T × Option Error`; a nilable handle or
  response `*T` in result position is `Option T`.  Both halves are kept, so a
  remote answer may carry a response, an error, both or neither.
* A method that dereferences a nil response does not return: its `Outcome` is
  `panicked`.
* Optional references that the code only reads or freshly allocates
  (`*ManagedObjectReference`, `*Folder`, `*HostSystem`) are `Option` values.
* The only pointer through which the code could write to memory owned by the
  caller is the `*types.ResourceConfigSpec` argument of `UpdateConfig`.  It is
  embedded as an address into an explicit store of config cells carried by the
  `World`; taking the address of a fresh local allocates a new cell at the end
  of the store.
* Remote calls go through a `Remote` parameter (the absent packages
  `vim25/methods` and `property`), threaded through an abstract server state.
  Each call is also appended to the trace `World.sent`.
-/

namespace Govmomi

/-! ## Parameters: the wire types the proxy passes through -/

/-- The types of the `vim25` packages that `resource_pool.go` moves around without
looking inside them. -/
structure Vim where
  /-- The session handle `*vim25.Client`. -/
  Client : Type
  /-- Go `error` values. -/
  Error : Type
  /-- The opaque identifier `types.ManagedObjectReference`. -/
  ManagedObjectReference : Type
  /-- The interface `types.BaseImportSpec`. -/
  BaseImportSpec : Type
  /-- The struct `types.VAppConfigSpec`. -/
  VAppConfigSpec : Type
  /-- The fields of `types.ResourceConfigSpec` other than `Entity`. -/
  ResourceConfigRest : Type
  /-- The fields of `mo.ResourcePool` other than `Name`. -/
  MoRest : Type
  /-- The zero value of those fields, as in `var o mo.ResourcePool`. -/
  moZero : MoRest

variable {V : Vim} {σ : Type}

/-! ## Handles -/

/-- Modelled from the spec: `Common` (file `object/common.go`, absent) is the
local handle shared by all proxies: it identifies a remote managed object by a
stable reference `r`, reached over the session `c` (the source reads the field
`p.c` directly). -/
structure Common (V : Vim) where
  c : V.Client
  r : V.ManagedObjectReference

/-- Modelled from the spec: `NewCommon(c, r)` builds the handle for reference `r`
on session `c`. -/
def NewCommon (c : V.Client) (r : V.ManagedObjectReference) : Common V :=
  { c := c, r := r }

/-- Modelled from the spec: `Common.Reference()` is the stable reference the
handle identifies. -/
def Common.Reference (x : Common V) : V.ManagedObjectReference := x.r

/-- ResourcePool represents a client to manage a resource pool: the embedded
`Common` plus `InventoryPath`. -/
structure ResourcePool (V : Vim) where
  Common : Govmomi.Common V
  InventoryPath : String

/-- The method `Reference` promoted from the embedded `Common`. -/
def ResourcePool.Reference (p : ResourcePool V) : V.ManagedObjectReference :=
  p.Common.Reference

/-- Modelled from the spec: `Folder` is a local handle; only its embedded
`Common` is used here. -/
structure Folder (V : Vim) where
  Common : Govmomi.Common V

/-- The method `Reference` promoted from the embedded `Common`. -/
def Folder.Reference (f : Folder V) : V.ManagedObjectReference := f.Common.Reference

/-- Modelled from the spec: `HostSystem` is a local handle; only its embedded
`Common` is used here. -/
structure HostSystem (V : Vim) where
  Common : Govmomi.Common V

/-- The method `Reference` promoted from the embedded `Common`. -/
def HostSystem.Reference (h : HostSystem V) : V.ManagedObjectReference :=
  h.Common.Reference

/-- Modelled from the spec: `HTTPNfcLease` is a local handle on the lease object
returned by an import. -/
structure HTTPNfcLease (V : Vim) where
  Common : Govmomi.Common V

/-- Modelled from the spec: `NewHTTPNfcLease(c, ref)` wraps the returned
reference in a local handle on the same session. -/
def NewHTTPNfcLease (c : V.Client) (ref : V.ManagedObjectReference) : HTTPNfcLease V :=
  { Common := NewCommon c ref }

/-- Modelled from the spec: `VirtualApp` is a local handle on a nested
application grouping. -/
structure VirtualApp (V : Vim) where
  Common : Govmomi.Common V

/-- Modelled from the spec: `NewVirtualApp(c, ref)` wraps the returned reference
in a local handle on the same session. -/
def NewVirtualApp (c : V.Client) (ref : V.ManagedObjectReference) : VirtualApp V :=
  { Common := NewCommon c ref }

/-- Modelled from the spec: `Task` is the task handle, a local proxy representing
the eventual outcome of an asynchronous remote operation. -/
structure Task (V : Vim) where
  Common : Govmomi.Common V

/-- Modelled from the spec: `NewTask(c, ref)` wraps the returned task reference
in a local handle on the same session; it performs no remote call. -/
def NewTask (c : V.Client) (ref : V.ManagedObjectReference) : Task V :=
  { Common := NewCommon c ref }

/-- NewResourcePool creates a new resource pool client: only `Common` is set,
`InventoryPath` keeps its zero value. -/
def NewResourcePool (c : V.Client) (ref : V.ManagedObjectReference) : ResourcePool V :=
  { Common := NewCommon c ref, InventoryPath := "" }

/-! ## Request and response structures (package `types`) -/

/-- The struct `types.ResourceConfigSpec`: the optional back-reference `Entity`
and the remaining fields. -/
structure types.ResourceConfigSpec (V : Vim) where
  Entity : Option V.ManagedObjectReference
  rest : V.ResourceConfigRest

/-- An address of a `types.ResourceConfigSpec` cell; `none` is the nil pointer. -/
abbrev ConfigPtr := Option Nat

structure types.ImportVApp (V : Vim) where
  This : V.ManagedObjectReference
  Spec : V.BaseImportSpec
  Folder : Option V.ManagedObjectReference
  Host : Option V.ManagedObjectReference

structure types.ImportVAppResponse (V : Vim) where
  Returnval : V.ManagedObjectReference

structure types.CreateResourcePool (V : Vim) where
  This : V.ManagedObjectReference
  Name : String
  Spec : types.ResourceConfigSpec V

structure types.CreateResourcePoolResponse (V : Vim) where
  Returnval : V.ManagedObjectReference

structure types.CreateVApp (V : Vim) where
  This : V.ManagedObjectReference
  Name : String
  ResSpec : types.ResourceConfigSpec V
  ConfigSpec : V.VAppConfigSpec
  VmFolder : Option V.ManagedObjectReference

structure types.CreateVAppResponse (V : Vim) where
  Returnval : V.ManagedObjectReference

structure types.UpdateConfig (V : Vim) where
  This : V.ManagedObjectReference
  Name : String
  Config : ConfigPtr

structure types.UpdateConfigResponse where

structure types.DestroyChildren (V : Vim) where
  This : V.ManagedObjectReference

structure types.DestroyChildrenResponse where

structure types.Destroy_Task (V : Vim) where
  This : V.ManagedObjectReference

structure types.Destroy_TaskResponse (V : Vim) where
  Returnval : V.ManagedObjectReference

/-- The struct `mo.ResourcePool`, the retrieved property set of a pool. -/
structure mo.ResourcePool (V : Vim) where
  Name : String
  rest : V.MoRest

/-- The zero value of `mo.ResourcePool`. -/
def mo.ResourcePool.zero : mo.ResourcePool V := { Name := "", rest := V.moZero }

/-- How a call of a Go method ends: it returns a value, or it panics (here always
a nil pointer dereference). -/
inductive Outcome (α : Type) where
  | returned (a : α)
  | panicked

/-! ## The remote side -/

/-- One remote call, as recorded in the trace: which entry point was invoked,
on which session, with which request. -/
inductive Call (V : Vim) where
  | Properties (x : Common V) (r : V.ManagedObjectReference) (ps : List String)
  | ImportVApp (c : V.Client) (req : types.ImportVApp V)
  | CreateResourcePool (c : V.Client) (req : types.CreateResourcePool V)
  | CreateVApp (c : V.Client) (req : types.CreateVApp V)
  | UpdateConfig (c : V.Client) (req : types.UpdateConfig V)
  | DestroyChildren (c : V.Client) (req : types.DestroyChildren V)
  | Destroy_Task (c : V.Client) (req : types.Destroy_Task V)

/-- The entry points of the absent packages `vim25/methods` and `property` that
the proxy calls.  Each one reads its request, answers with the Go pair of a
nilable response and a nilable error, and moves the server state `σ`.  `UpdateConfig` may also read the config
cells, since its request carries an address.  `Properties` receives the
destination object and returns it as filled in, next to the error. -/
structure Remote (V : Vim) (σ : Type) where
  Properties : Common V → V.ManagedObjectReference → List String → mo.ResourcePool V → σ →
    (Option V.Error × mo.ResourcePool V) × σ
  ImportVApp : V.Client → types.ImportVApp V → σ →
    (Option (types.ImportVAppResponse V) × Option V.Error) × σ
  CreateResourcePool : V.Client → types.CreateResourcePool V → σ →
    (Option (types.CreateResourcePoolResponse V) × Option V.Error) × σ
  CreateVApp : V.Client → types.CreateVApp V → σ →
    (Option (types.CreateVAppResponse V) × Option V.Error) × σ
  UpdateConfig : V.Client → types.UpdateConfig V → List (types.ResourceConfigSpec V) → σ →
    (Option (types.UpdateConfigResponse) × Option V.Error) × σ
  DestroyChildren : V.Client → types.DestroyChildren V → σ →
    (Option (types.DestroyChildrenResponse) × Option V.Error) × σ
  Destroy_Task : V.Client → types.Destroy_Task V → σ →
    (Option (types.Destroy_TaskResponse V) × Option V.Error) × σ

/-- Everything a method of the proxy can observe or change: the config cells
reachable through `*types.ResourceConfigSpec` pointers, the pool handles held by
callers, the trace of remote calls made so far and the server state. -/
structure World (V : Vim) (σ : Type) where
  configs : List (types.ResourceConfigSpec V)
  pools : List (ResourcePool V)
  sent : List (Call V)
  remote : σ

/-- Record a call in the trace and install the new server state. -/
def World.after (w : World V σ) (call : Call V) (s : σ) : World V σ :=
  { w with sent := w.sent ++ [call], remote := s }

/-- `p.Properties(ctx, r, ps, &o)` of the embedded `Common`. -/
def Common.Properties (m : Remote V σ) (x : Common V) (r : V.ManagedObjectReference)
    (ps : List String) (dst : mo.ResourcePool V) (w : World V σ) :
    (Option V.Error × mo.ResourcePool V) × World V σ :=
  ((m.Properties x r ps dst w.remote).1,
    w.after (Call.Properties x r ps) (m.Properties x r ps dst w.remote).2)

def methods.ImportVApp (m : Remote V σ) (c : V.Client) (req : types.ImportVApp V)
    (w : World V σ) : (Option (types.ImportVAppResponse V) × Option V.Error) × World V σ :=
  ((m.ImportVApp c req w.remote).1,
    w.after (Call.ImportVApp c req) (m.ImportVApp c req w.remote).2)

def methods.CreateResourcePool (m : Remote V σ) (c : V.Client)
    (req : types.CreateResourcePool V) (w : World V σ) :
    (Option (types.CreateResourcePoolResponse V) × Option V.Error) × World V σ :=
  ((m.CreateResourcePool c req w.remote).1,
    w.after (Call.CreateResourcePool c req) (m.CreateResourcePool c req w.remote).2)

def methods.CreateVApp (m : Remote V σ) (c : V.Client) (req : types.CreateVApp V)
    (w : World V σ) : (Option (types.CreateVAppResponse V) × Option V.Error) × World V σ :=
  ((m.CreateVApp c req w.remote).1,
    w.after (Call.CreateVApp c req) (m.CreateVApp c req w.remote).2)

def methods.UpdateConfig (m : Remote V σ) (c : V.Client) (req : types.UpdateConfig V)
    (w : World V σ) : (Option (types.UpdateConfigResponse) × Option V.Error) × World V σ :=
  ((m.UpdateConfig c req w.configs w.remote).1,
    w.after (Call.UpdateConfig c req) (m.UpdateConfig c req w.configs w.remote).2)

def methods.DestroyChildren (m : Remote V σ) (c : V.Client) (req : types.DestroyChildren V)
    (w : World V σ) : (Option (types.DestroyChildrenResponse) × Option V.Error) × World V σ :=
  ((m.DestroyChildren c req w.remote).1,
    w.after (Call.DestroyChildren c req) (m.DestroyChildren c req w.remote).2)

def methods.Destroy_Task (m : Remote V σ) (c : V.Client) (req : types.Destroy_Task V)
    (w : World V σ) : (Option (types.Destroy_TaskResponse V) × Option V.Error) × World V σ :=
  ((m.Destroy_Task c req w.remote).1,
    w.after (Call.Destroy_Task c req) (m.Destroy_Task c req w.remote).2)

/-! ## Formatting (the fragment of `fmt.Sprintf` the proxy uses) -/

/-- An operand of `Sprintf`, already rendered: `typ` is what `%T` prints and
`v` what `%v` prints (for a value with a `String` method, the result of that
method; for a string, the string itself). -/
structure fmt.Arg where
  typ : String
  v : String

/-- The tail `%!(EXTRA type=value, ...)` for operands left over at the end of the
format; empty when none is left. -/
def fmt.extra : List fmt.Arg → List Char
  | [] => []
  | a :: as =>
    "%!(EXTRA ".toList ++ a.typ.toList ++ ['='] ++ a.v.toList ++
      (as.map fun b => ", ".toList ++ b.typ.toList ++ ['='] ++ b.v.toList).flatten ++ [')']

/-- The printing loop of `Sprintf` for formats made of literal text, `%%` and
verbs without flags, width or precision.  `v` is the only verb given a meaning;
any other verb is reported the way `fmt` reports an unknown verb. -/
def fmt.doPrintf : List Char → List fmt.Arg → List Char
  | [], as => fmt.extra as
  | c :: fs, as =>
    if c ≠ '%' then c :: fmt.doPrintf fs as
    else
      match fs with
      | [] => "%!(NOVERB)".toList ++ fmt.extra as
      | verb :: fs =>
        if verb = '%' then '%' :: fmt.doPrintf fs as
        else
          match as with
          | [] => "%!".toList ++ [verb] ++ "(MISSING)".toList ++ fmt.doPrintf fs []
          | a :: as =>
            if verb = 'v' then a.v.toList ++ fmt.doPrintf fs as
            else
              "%!".toList ++ [verb] ++ ['('] ++ a.typ.toList ++ ['='] ++ a.v.toList ++ [')'] ++
                fmt.doPrintf fs as

/-- Sprintf formats according to a format specifier and returns the resulting
string. -/
def fmt.Sprintf (format : String) (a : List fmt.Arg) : String :=
  String.mk (fmt.doPrintf format.toList a)

/-! ## The methods of `ResourcePool` -/

/-- Name returns the name of the resource pool. -/
def ResourcePool.Name (m : Remote V σ) (p : ResourcePool V) (w : World V σ) :
    (String × Option V.Error) × World V σ :=
  let o : mo.ResourcePool V := mo.ResourcePool.zero
  match Common.Properties m p.Common p.Reference ["name"] o w with
  | ((some err, _), w) => (("", some err), w)
  | ((none, o), w) => ((o.Name, none), w)

/-- ImportVApp imports a vApp into the resource pool. -/
def ResourcePool.ImportVApp (m : Remote V σ) (p : ResourcePool V) (spec : V.BaseImportSpec)
    (folder : Option (Folder V)) (host : Option (HostSystem V)) (w : World V σ) :
    Outcome (Option (HTTPNfcLease V) × Option V.Error) × World V σ :=
  let req : types.ImportVApp V :=
    { This := p.Reference, Spec := spec, Folder := none, Host := none }
  let req : types.ImportVApp V :=
    match folder with
    | some f => { req with Folder := some f.Reference }
    | none => req
  let req : types.ImportVApp V :=
    match host with
    | some h => { req with Host := some h.Reference }
    | none => req
  match methods.ImportVApp m p.Common.c req w with
  | ((_, some err), w) => (.returned (none, some err), w)
  | ((some res, none), w) => (.returned (some (NewHTTPNfcLease p.Common.c res.Returnval), none), w)
  | ((none, none), w) => (.panicked, w)

/-- Create a resource pool. -/
def ResourcePool.Create (m : Remote V σ) (p : ResourcePool V) (name : String)
    (spec : types.ResourceConfigSpec V) (w : World V σ) :
    Outcome (Option (ResourcePool V) × Option V.Error) × World V σ :=
  let req : types.CreateResourcePool V :=
    { This := p.Reference, Name := name, Spec := spec }
  match methods.CreateResourcePool m p.Common.c req w with
  | ((_, some err), w) => (.returned (none, some err), w)
  | ((some res, none), w) => (.returned (some (NewResourcePool p.Common.c res.Returnval), none), w)
  | ((none, none), w) => (.panicked, w)

/-- CreateVApp in this resource pool. -/
def ResourcePool.CreateVApp (m : Remote V σ) (p : ResourcePool V) (name : String)
    (resSpec : types.ResourceConfigSpec V) (configSpec : V.VAppConfigSpec)
    (folder : Option (Folder V)) (w : World V σ) :
    Outcome (Option (VirtualApp V) × Option V.Error) × World V σ :=
  let req : types.CreateVApp V :=
    { This := p.Reference, Name := name, ResSpec := resSpec, ConfigSpec := configSpec,
      VmFolder := none }
  let req : types.CreateVApp V :=
    match folder with
    | some f => { req with VmFolder := some f.Reference }
    | none => req
  match methods.CreateVApp m p.Common.c req w with
  | ((_, some err), w) => (.returned (none, some err), w)
  | ((some res, none), w) => (.returned (some (NewVirtualApp p.Common.c res.Returnval), none), w)
  | ((none, none), w) => (.panicked, w)

/-- The request `UpdateConfig` sends and the store it leaves, before the remote
call: the lines from `req := types.UpdateConfig` to the end of the `if`.  When
`config` is non-nil and its `Entity` is nil, a copy of the cell with `Entity` set
to the reference of the pool is allocated at the end of the store and the
request points at the copy.  An address outside the store does not arise in Go;
the request is then left as built. -/
def ResourcePool.UpdateConfig.build (p : ResourcePool V) (name : String) (config : ConfigPtr)
    (w : World V σ) : types.UpdateConfig V × World V σ :=
  let req : types.UpdateConfig V := { This := p.Reference, Name := name, Config := config }
  match config with
  | none => (req, w)
  | some a =>
    match w.configs[a]? with
    | none => (req, w)
    | some cfg =>
      if cfg.Entity.isNone then
        let ref := p.Reference
        let newConfig : types.ResourceConfigSpec V := { cfg with Entity := some ref }
        ({ req with Config := some w.configs.length },
          { w with configs := w.configs ++ [newConfig] })
      else (req, w)

/-- UpdateConfig updates the config for this resource pool. -/
def ResourcePool.UpdateConfig (m : Remote V σ) (p : ResourcePool V) (name : String)
    (config : ConfigPtr) (w : World V σ) : Option V.Error × World V σ :=
  let b := ResourcePool.UpdateConfig.build p name config w
  ((methods.UpdateConfig m p.Common.c b.1 b.2).1.2,
    (methods.UpdateConfig m p.Common.c b.1 b.2).2)

/-- DestroyChildren destroys the children for this resource pool. -/
def ResourcePool.DestroyChildren (m : Remote V σ) (p : ResourcePool V) (w : World V σ) :
    Option V.Error × World V σ :=
  let req : types.DestroyChildren V := { This := p.Reference }
  ((methods.DestroyChildren m p.Common.c req w).1.2,
    (methods.DestroyChildren m p.Common.c req w).2)

/-- Destroy this resource pool. -/
def ResourcePool.Destroy (m : Remote V σ) (p : ResourcePool V) (w : World V σ) :
    Outcome (Option (Task V) × Option V.Error) × World V σ :=
  let req : types.Destroy_Task V := { This := p.Reference }
  match methods.Destroy_Task m p.Common.c req w with
  | ((_, some err), w) => (.returned (none, some err), w)
  | ((some res, none), w) => (.returned (some (NewTask p.Common.c res.Returnval), none), w)
  | ((none, none), w) => (.panicked, w)

/-- String has a string representation of the resource pool.  The embedded
`Common` comes from the absent `object/common.go`, so both of its renderings are
parameters: `CommonString` is its method `String()`, `CommonFormat` is what `%v`
prints for a `Common` operand (with a `String` method on the value receiver,
`fmt` calls that method and the two are the same function). -/
def ResourcePool.String (CommonString CommonFormat : Govmomi.Common V → String)
    (p : ResourcePool V) : String :=
  if p.InventoryPath = "" then CommonString p.Common
  else
    fmt.Sprintf "%v @ %v"
      [{ typ := "object.Common", v := CommonFormat p.Common },
       { typ := "string", v := p.InventoryPath }]

/-! ## A concrete instance for evaluation -/

/-- A small instance of the parameters: sessions and errors are numbers,
references and payloads are strings. -/
@[reducible] def Vim.demo : Vim :=
  { Client := Nat, Error := Nat, ManagedObjectReference := String, BaseImportSpec := String,
    VAppConfigSpec := String, ResourceConfigRest := Nat, MoRest := Unit, moZero := () }

/-- A server whose state counts the calls received.  Even-numbered calls
succeed, returning a reference derived from the request; odd-numbered calls
fail with the call number as error and no response. -/
def Remote.demo : Remote Vim.demo Nat :=
  { Properties := fun _ r _ dst s =>
      if s % 2 = 0 then ((none, { dst with Name := "name-of-" ++ r }), s + 1)
      else ((some s, dst), s + 1)
    ImportVApp := fun _ req s =>
      if s % 2 = 0 then ((some { Returnval := "lease-" ++ req.This }, none), s + 1)
      else ((none, some s), s + 1)
    CreateResourcePool := fun _ req s =>
      if s % 2 = 0 then ((some { Returnval := "pool-" ++ req.Name }, none), s + 1)
      else ((none, some s), s + 1)
    CreateVApp := fun _ req s =>
      if s % 2 = 0 then ((some { Returnval := "vapp-" ++ req.Name }, none), s + 1)
      else ((none, some s), s + 1)
    UpdateConfig := fun _ _ _ s =>
      if s % 2 = 0 then ((some {}, none), s + 1) else ((none, some s), s + 1)
    DestroyChildren := fun _ _ s =>
      if s % 2 = 0 then ((some {}, none), s + 1) else ((none, some s), s + 1)
    Destroy_Task := fun _ req s =>
      if s % 2 = 0 then ((some { Returnval := "task-" ++ req.This }, none), s + 1)
      else ((none, some s), s + 1) }

/-- A server that answers every call with neither a response nor an error (for
a property retrieval: no error and the destination left as it was). -/
def Remote.silent : Remote Vim.demo Nat :=
  { Properties := fun _ _ _ dst s => ((none, dst), s + 1)
    ImportVApp := fun _ _ s => ((none, none), s + 1)
    CreateResourcePool := fun _ _ s => ((none, none), s + 1)
    CreateVApp := fun _ _ s => ((none, none), s + 1)
    UpdateConfig := fun _ _ _ s => ((none, none), s + 1)
    DestroyChildren := fun _ _ s => ((none, none), s + 1)
    Destroy_Task := fun _ _ s => ((none, none), s + 1) }

/-- A pool handle on session 7 for reference `resgroup-8` with an inventory path. -/
def demoPool : ResourcePool Vim.demo :=
  { Common := { c := (7 : Nat), r := ("resgroup-8" : String) }, InventoryPath := "/dc/host/pool" }

/-- A world with two config cells (the first without `Entity`, the second with
one), a single pool handle, an empty trace and a server at call number `s`. -/
def World.demo (s : Nat) : World Vim.demo Nat :=
  { configs := [{ Entity := none, rest := (1 : Nat) },
                { Entity := some ("resgroup-1" : String), rest := (2 : Nat) }],
    pools := [demoPool], sent := [], remote := s }

/-- The managed object a recorded call is addressed to: the `This` field of its
request (for a property retrieval, the object whose properties are read). -/
def Call.target : Call V → V.ManagedObjectReference
  | .Properties _ r _ => r
  | .ImportVApp _ req => req.This
  | .CreateResourcePool _ req => req.This
  | .CreateVApp _ req => req.This
  | .UpdateConfig _ req => req.This
  | .DestroyChildren _ req => req.This
  | .Destroy_Task _ req => req.This

/-! ## Unfolding lemmas -/

/-- The result of `ImportVApp` in terms of the answer of the single remote call. -/
theorem ImportVApp_unfold (m : Remote V σ) (p : ResourcePool V) (spec : V.BaseImportSpec)
    (folder : Option (Folder V)) (host : Option (HostSystem V)) (w : World V σ)
    (req : types.ImportVApp V)
    (hreq : req = { This := p.Reference, Spec := spec, Folder := folder.map Folder.Reference,
                    Host := host.map HostSystem.Reference }) :
    p.ImportVApp m spec folder host w =
      (match (m.ImportVApp p.Common.c req w.remote).1 with
        | (_, some err) => .returned (none, some err)
        | (some res, none) => .returned (some (NewHTTPNfcLease p.Common.c res.Returnval), none)
        | (none, none) => .panicked,
       w.after (Call.ImportVApp p.Common.c req) (m.ImportVApp p.Common.c req w.remote).2) := by
  subst hreq
  cases folder <;> cases host <;>
    simp only [ResourcePool.ImportVApp, methods.ImportVApp, Option.map] <;>
    generalize m.ImportVApp p.Common.c _ w.remote = x <;>
    rcases x with ⟨⟨_ | res, _ | err⟩, s⟩ <;> rfl

/-- The result of `Create` in terms of the answer of the single remote call. -/
theorem Create_unfold (m : Remote V σ) (p : ResourcePool V) (name : String)
    (spec : types.ResourceConfigSpec V) (w : World V σ) (req : types.CreateResourcePool V)
    (hreq : req = { This := p.Reference, Name := name, Spec := spec }) :
    p.Create m name spec w =
      (match (m.CreateResourcePool p.Common.c req w.remote).1 with
        | (_, some err) => .returned (none, some err)
        | (some res, none) => .returned (some (NewResourcePool p.Common.c res.Returnval), none)
        | (none, none) => .panicked,
       w.after (Call.CreateResourcePool p.Common.c req)
         (m.CreateResourcePool p.Common.c req w.remote).2) := by
  subst hreq
  simp only [ResourcePool.Create, methods.CreateResourcePool]
  generalize m.CreateResourcePool p.Common.c _ w.remote = x
  rcases x with ⟨⟨_ | res, _ | err⟩, s⟩ <;> rfl

/-- The result of `CreateVApp` in terms of the answer of the single remote call. -/
theorem CreateVApp_unfold (m : Remote V σ) (p : ResourcePool V) (name : String)
    (resSpec : types.ResourceConfigSpec V) (configSpec : V.VAppConfigSpec)
    (folder : Option (Folder V)) (w : World V σ) (req : types.CreateVApp V)
    (hreq : req = { This := p.Reference, Name := name, ResSpec := resSpec,
                    ConfigSpec := configSpec, VmFolder := folder.map Folder.Reference }) :
    p.CreateVApp m name resSpec configSpec folder w =
      (match (m.CreateVApp p.Common.c req w.remote).1 with
        | (_, some err) => .returned (none, some err)
        | (some res, none) => .returned (some (NewVirtualApp p.Common.c res.Returnval), none)
        | (none, none) => .panicked,
       w.after (Call.CreateVApp p.Common.c req) (m.CreateVApp p.Common.c req w.remote).2) := by
  subst hreq
  cases folder <;>
    simp only [ResourcePool.CreateVApp, methods.CreateVApp, Option.map] <;>
    generalize m.CreateVApp p.Common.c _ w.remote = x <;>
    rcases x with ⟨⟨_ | res, _ | err⟩, s⟩ <;> rfl

/-- The result of `Destroy` in terms of the answer of the single remote call. -/
theorem Destroy_unfold (m : Remote V σ) (p : ResourcePool V) (w : World V σ)
    (req : types.Destroy_Task V) (hreq : req = { This := p.Reference }) :
    p.Destroy m w =
      (match (m.Destroy_Task p.Common.c req w.remote).1 with
        | (_, some err) => .returned (none, some err)
        | (some res, none) => .returned (some (NewTask p.Common.c res.Returnval), none)
        | (none, none) => .panicked,
       w.after (Call.Destroy_Task p.Common.c req) (m.Destroy_Task p.Common.c req w.remote).2) := by
  subst hreq
  simp only [ResourcePool.Destroy, methods.Destroy_Task]
  generalize m.Destroy_Task p.Common.c _ w.remote = x
  rcases x with ⟨⟨_ | res, _ | err⟩, s⟩ <;> rfl

/-- The result of `Name` in terms of the answer of the single property retrieval. -/
theorem Name_unfold (m : Remote V σ) (p : ResourcePool V) (w : World V σ) :
    p.Name m w =
      (match (m.Properties p.Common p.Reference ["name"] mo.ResourcePool.zero w.remote).1 with
        | (some err, _) => ("", some err)
        | (none, o) => (o.Name, none),
       w.after (Call.Properties p.Common p.Reference ["name"])
         (m.Properties p.Common p.Reference ["name"] mo.ResourcePool.zero w.remote).2) := by
  simp only [ResourcePool.Name, Common.Properties]
  split <;> rename_i h <;> rw [Prod.mk.injEq] at h <;> rw [← h.2, h.1]

/-- The result of `DestroyChildren` in terms of the answer of the single remote call. -/
theorem DestroyChildren_unfold (m : Remote V σ) (p : ResourcePool V) (w : World V σ)
    (req : types.DestroyChildren V) (hreq : req = { This := p.Reference }) :
    p.DestroyChildren m w =
      ((m.DestroyChildren p.Common.c req w.remote).1.2,
       w.after (Call.DestroyChildren p.Common.c req)
         (m.DestroyChildren p.Common.c req w.remote).2) := by
  subst hreq
  rfl

/-- Building the request of `UpdateConfig` leaves the trace, the server state and
the pool handles alone, and only ever extends the store of config cells. -/
theorem UpdateConfig_build_frame (p : ResourcePool V) (name : String) (config : ConfigPtr)
    (w : World V σ) :
    (ResourcePool.UpdateConfig.build p name config w).2.sent = w.sent ∧
    (ResourcePool.UpdateConfig.build p name config w).2.remote = w.remote ∧
    (ResourcePool.UpdateConfig.build p name config w).2.pools = w.pools ∧
    (∃ extra, (ResourcePool.UpdateConfig.build p name config w).2.configs =
      w.configs ++ extra) ∧
    (ResourcePool.UpdateConfig.build p name config w).1.This = p.Reference ∧
    (ResourcePool.UpdateConfig.build p name config w).1.Name = name := by
  unfold ResourcePool.UpdateConfig.build
  cases config with
  | none => exact ⟨rfl, rfl, rfl, ⟨[], by simp⟩, rfl, rfl⟩
  | some a =>
    cases h : w.configs[a]? with
    | none => simp [h]
    | some cfg =>
      simp only [h]
      split
      · exact ⟨rfl, rfl, rfl, ⟨_, rfl⟩, rfl, rfl⟩
      · exact ⟨rfl, rfl, rfl, ⟨[], by simp⟩, rfl, rfl⟩

/-- The result of `UpdateConfig` in terms of the request built and the answer of
the single remote call. -/
theorem UpdateConfig_unfold (m : Remote V σ) (p : ResourcePool V) (name : String)
    (config : ConfigPtr) (w : World V σ) :
    p.UpdateConfig m name config w =
      ((m.UpdateConfig p.Common.c (ResourcePool.UpdateConfig.build p name config w).1
          (ResourcePool.UpdateConfig.build p name config w).2.configs w.remote).1.2,
       { configs := (ResourcePool.UpdateConfig.build p name config w).2.configs
         pools := w.pools
         sent := w.sent ++
           [Call.UpdateConfig p.Common.c (ResourcePool.UpdateConfig.build p name config w).1]
         remote := (m.UpdateConfig p.Common.c
           (ResourcePool.UpdateConfig.build p name config w).1
           (ResourcePool.UpdateConfig.build p name config w).2.configs w.remote).2 }) := by
  obtain ⟨h1, h2, h3, -, -, -⟩ := UpdateConfig_build_frame p name config w
  simp only [ResourcePool.UpdateConfig, methods.UpdateConfig, World.after, h1, h2, h3]

/-- With a nil `config` the request is sent as built and the store is untouched. -/
theorem UpdateConfig_build_nil (p : ResourcePool V) (name : String) (w : World V σ) :
    ResourcePool.UpdateConfig.build p name none w =
      ({ This := p.Reference, Name := name, Config := none }, w) := rfl

/-- With a `config` whose `Entity` is set the request carries the pointer of the
caller and the store is untouched. -/
theorem UpdateConfig_build_set (p : ResourcePool V) (name : String) (a : Nat)
    (cfg : types.ResourceConfigSpec V) (w : World V σ)
    (h : w.configs[a]? = some cfg) (he : cfg.Entity ≠ none) :
    ResourcePool.UpdateConfig.build p name (some a) w =
      ({ This := p.Reference, Name := name, Config := some a }, w) := by
  have hn : cfg.Entity.isNone = false := by
    cases hc : cfg.Entity with
    | none => exact absurd hc he
    | some e => rfl
  simp [ResourcePool.UpdateConfig.build, h, hn]

/-- With a `config` whose `Entity` is nil the request points at a fresh copy,
allocated at the end of the store, whose `Entity` is the reference of the pool. -/
theorem UpdateConfig_build_unset (p : ResourcePool V) (name : String) (a : Nat)
    (cfg : types.ResourceConfigSpec V) (w : World V σ)
    (h : w.configs[a]? = some cfg) (he : cfg.Entity = none) :
    ResourcePool.UpdateConfig.build p name (some a) w =
      ({ This := p.Reference, Name := name, Config := some w.configs.length },
       { w with configs := w.configs ++ [{ Entity := some p.Reference, rest := cfg.rest }] }) := by
  simp [ResourcePool.UpdateConfig.build, h, he]

/-- The format `%v @ %v` applied to two operands prints the first, the separator
and the second. -/
theorem Sprintf_v_at_v (a b : fmt.Arg) :
    fmt.Sprintf "%v @ %v" [a, b] = a.v ++ " @ " ++ b.v := by
  apply String.ext
  simp [fmt.Sprintf, fmt.doPrintf, fmt.extra]

/-! ## The claims -/

/-- C1: `UpdateConfig` never mutates the config of the caller.  For every pool,
name, remote side and world in which the pointer `a` passed as `config` holds
the cell `cfg` (with `Entity` nil or set), the cell at `a` is still `cfg` after
the call, whatever the remote call answered; in particular a cell passed with
`Entity` nil still has `Entity` nil; and no other cell of the store changes
either. -/
theorem UpdateConfig_does_not_mutate_config (m : Remote V σ) (p : ResourcePool V)
    (name : String) (a : Nat) (cfg : types.ResourceConfigSpec V) (w : World V σ)
    (h : w.configs[a]? = some cfg) :
    (p.UpdateConfig m name (some a) w).2.configs[a]? = some cfg ∧
    (cfg.Entity = none →
      ((p.UpdateConfig m name (some a) w).2.configs[a]?).map (fun c => c.Entity) = some none) ∧
    (∀ (b : Nat) (c : types.ResourceConfigSpec V), w.configs[b]? = some c →
      (p.UpdateConfig m name (some a) w).2.configs[b]? = some c) := by
  have key : ∀ (b : Nat) (c : types.ResourceConfigSpec V), w.configs[b]? = some c →
      (p.UpdateConfig m name (some a) w).2.configs[b]? = some c := by
    intro b c hb
    obtain ⟨-, -, -, ⟨extra, hx⟩, -, -⟩ := UpdateConfig_build_frame p name (some a) w
    rw [UpdateConfig_unfold]
    simp only [hx]
    have hlt : b < w.configs.length := by
      by_contra hge
      rw [List.getElem?_eq_none (Nat.le_of_not_lt hge)] at hb
      exact Option.noConfusion hb
    rw [List.getElem?_append_left hlt]
    exact hb
  refine ⟨key a cfg h, ?_, key⟩
  intro he
  rw [key a cfg h, Option.map_some', he]

/-- A run of C1: the first demo cell has no `Entity`; after `UpdateConfig` on it
(the remote call succeeding) the cell is what it was. -/
theorem UpdateConfig_does_not_mutate_config_witness :
    (World.demo 0).configs[0]? = some { Entity := none, rest := (1 : Nat) } ∧
    (demoPool.UpdateConfig Remote.demo "x" (some 0) (World.demo 0)).2.configs[0]? =
      some { Entity := none, rest := (1 : Nat) } :=
  ⟨rfl, (UpdateConfig_does_not_mutate_config Remote.demo demoPool "x" 0 _ (World.demo 0) rfl).1⟩

/-- C2: the request `UpdateConfig(name, config)` sends has `This = p.Reference()`
and `Name = name`, and its `Config` follows three cases.  With `config` nil it is
nil.  With `config` pointing at a cell whose `Entity` is set it is the very
pointer of the caller, and the store is as it was, so the cell keeps the `Entity`
it was given.  With `config` pointing at a cell whose `Entity` is nil it points
at a new cell, equal to the cell of the caller in all fields but `Entity`, which
is `p.Reference()`. -/
theorem UpdateConfig_request (m : Remote V σ) (p : ResourcePool V) (name : String)
    (w : World V σ) :
    ((p.UpdateConfig m name none w).2.sent =
        w.sent ++ [Call.UpdateConfig p.Common.c
          { This := p.Reference, Name := name, Config := none }]) ∧
    (∀ (a : Nat) (cfg : types.ResourceConfigSpec V), w.configs[a]? = some cfg → cfg.Entity ≠ none →
      (p.UpdateConfig m name (some a) w).2.sent =
        w.sent ++ [Call.UpdateConfig p.Common.c
          { This := p.Reference, Name := name, Config := some a }] ∧
      (p.UpdateConfig m name (some a) w).2.configs = w.configs) ∧
    (∀ (a : Nat) (cfg : types.ResourceConfigSpec V), w.configs[a]? = some cfg → cfg.Entity = none →
      (p.UpdateConfig m name (some a) w).2.sent =
        w.sent ++ [Call.UpdateConfig p.Common.c
          { This := p.Reference, Name := name, Config := some w.configs.length }] ∧
      (p.UpdateConfig m name (some a) w).2.configs =
        w.configs ++ [{ Entity := some p.Reference, rest := cfg.rest }]) := by
  refine ⟨?_, ?_, ?_⟩
  · rw [UpdateConfig_unfold, UpdateConfig_build_nil]
  · intro a cfg h he
    rw [UpdateConfig_unfold, UpdateConfig_build_set p name a cfg w h he]
    exact ⟨rfl, rfl⟩
  · intro a cfg h he
    rw [UpdateConfig_unfold, UpdateConfig_build_unset p name a cfg w h he]
    exact ⟨rfl, rfl⟩

/-- A run of C2, third case: the first demo cell has no `Entity`, so the request
points at the new cell 2, which holds the reference of the pool. -/
theorem UpdateConfig_request_witness :
    (World.demo 0).configs[0]? = some { Entity := none, rest := (1 : Nat) } ∧
    (demoPool.UpdateConfig Remote.demo "x" (some 0) (World.demo 0)).2.sent =
      [Call.UpdateConfig (7 : Nat)
        { This := ("resgroup-8" : String), Name := "x", Config := some 2 }] ∧
    (demoPool.UpdateConfig Remote.demo "x" (some 0) (World.demo 0)).2.configs =
      [{ Entity := none, rest := (1 : Nat) },
       { Entity := some ("resgroup-1" : String), rest := (2 : Nat) },
       { Entity := some ("resgroup-8" : String), rest := (1 : Nat) }] :=
  ⟨rfl, (UpdateConfig_request Remote.demo demoPool "x" (World.demo 0)).2.2 0 _ rfl rfl⟩

/-- C3: the `ImportVApp` request has `This = p.Reference()` and `Spec = spec`; its
`Folder` is present exactly when the folder argument is non-nil and then equals
`folder.Reference()`; its `Host` is present exactly when the host argument is
non-nil and then equals `host.Reference()`; each optional field depends on its
own argument only. -/
theorem ImportVApp_request (m : Remote V σ) (p : ResourcePool V) (spec : V.BaseImportSpec)
    (folder : Option (Folder V)) (host : Option (HostSystem V)) (w : World V σ) :
    ∃ req : types.ImportVApp V,
      (p.ImportVApp m spec folder host w).2.sent = w.sent ++ [Call.ImportVApp p.Common.c req] ∧
      req.This = p.Reference ∧ req.Spec = spec ∧
      (req.Folder.isSome ↔ folder.isSome) ∧
      (∀ f, folder = some f → req.Folder = some f.Reference) ∧
      (req.Host.isSome ↔ host.isSome) ∧
      (∀ h, host = some h → req.Host = some h.Reference) ∧
      req = { This := p.Reference, Spec := spec, Folder := folder.map Folder.Reference,
              Host := host.map HostSystem.Reference } := by
  refine ⟨_, ?_, rfl, rfl, ?_, ?_, ?_, ?_, rfl⟩
  · rw [ImportVApp_unfold m p spec folder host w _ rfl]
    rfl
  · cases folder <;> simp
  · intro f hf; subst hf; rfl
  · cases host <;> simp
  · intro h hh; subst hh; rfl

/-- A run of C3: with a folder and no host, the request carries the reference
of the folder and no host. -/
theorem ImportVApp_request_witness :
    (demoPool.ImportVApp Remote.demo "ovf"
        (some { Common := { c := (7 : Nat), r := ("group-v3" : String) } }) none
        (World.demo 0)).2.sent =
      [Call.ImportVApp (7 : Nat)
        { This := ("resgroup-8" : String), Spec := ("ovf" : String),
          Folder := some ("group-v3" : String), Host := none }] := by
  obtain ⟨req, hs, -, -, -, -, -, -, hreq⟩ :=
    ImportVApp_request Remote.demo demoPool "ovf"
      (some { Common := { c := (7 : Nat), r := ("group-v3" : String) } }) none (World.demo 0)
  rw [hs, hreq]
  rfl

/-- C4, as the code has it: every remote operation of `ResourcePool` passes the
error of its single remote call through unchanged.  For each of `Name`,
`ImportVApp`, `Create`, `CreateVApp`, `UpdateConfig`, `DestroyChildren` and
`Destroy`: when the call answers with an error `e` (with or without a response
next to it), the operation returns exactly `e` next to the zero result (the
empty string, a nil handle), and the world it leaves is the one right after
that one call (the trace grew by this call only).  When the call answers
without error, `Name`, `UpdateConfig` and `DestroyChildren` return a nil error;
`ImportVApp`, `Create`, `CreateVApp` and `Destroy` return a nil error, next to
the handle on `Returnval`, when the answer carries a response. -/
theorem operations_propagate_transport_error (m : Remote V σ) (p : ResourcePool V)
    (w : World V σ) (spec : V.BaseImportSpec) (folder : Option (Folder V))
    (host : Option (HostSystem V)) (name : String) (resSpec : types.ResourceConfigSpec V)
    (configSpec : V.VAppConfigSpec) (config : ConfigPtr) :
    -- Name
    (∀ e o s,
      m.Properties p.Common p.Reference ["name"] mo.ResourcePool.zero w.remote = ((some e, o), s) →
      p.Name m w = (("", some e), w.after (Call.Properties p.Common p.Reference ["name"]) s)) ∧
    (∀ o s,
      m.Properties p.Common p.Reference ["name"] mo.ResourcePool.zero w.remote = ((none, o), s) →
      (p.Name m w).1.2 = none) ∧
    -- ImportVApp
    (∀ r e s,
      m.ImportVApp p.Common.c
        { This := p.Reference, Spec := spec, Folder := folder.map Folder.Reference,
          Host := host.map HostSystem.Reference } w.remote = ((r, some e), s) →
      p.ImportVApp m spec folder host w =
        (.returned (none, some e), w.after (Call.ImportVApp p.Common.c
          { This := p.Reference, Spec := spec, Folder := folder.map Folder.Reference,
            Host := host.map HostSystem.Reference }) s)) ∧
    (∀ res s,
      m.ImportVApp p.Common.c
        { This := p.Reference, Spec := spec, Folder := folder.map Folder.Reference,
          Host := host.map HostSystem.Reference } w.remote = ((some res, none), s) →
      (p.ImportVApp m spec folder host w).1 =
        .returned (some (NewHTTPNfcLease p.Common.c res.Returnval), none)) ∧
    -- Create
    (∀ r e s,
      m.CreateResourcePool p.Common.c { This := p.Reference, Name := name, Spec := resSpec }
        w.remote = ((r, some e), s) →
      p.Create m name resSpec w =
        (.returned (none, some e), w.after (Call.CreateResourcePool p.Common.c
          { This := p.Reference, Name := name, Spec := resSpec }) s)) ∧
    (∀ res s,
      m.CreateResourcePool p.Common.c { This := p.Reference, Name := name, Spec := resSpec }
        w.remote = ((some res, none), s) →
      (p.Create m name resSpec w).1 =
        .returned (some (NewResourcePool p.Common.c res.Returnval), none)) ∧
    -- CreateVApp
    (∀ r e s,
      m.CreateVApp p.Common.c
        { This := p.Reference, Name := name, ResSpec := resSpec, ConfigSpec := configSpec,
          VmFolder := folder.map Folder.Reference } w.remote = ((r, some e), s) →
      p.CreateVApp m name resSpec configSpec folder w =
        (.returned (none, some e), w.after (Call.CreateVApp p.Common.c
          { This := p.Reference, Name := name, ResSpec := resSpec, ConfigSpec := configSpec,
            VmFolder := folder.map Folder.Reference }) s)) ∧
    (∀ res s,
      m.CreateVApp p.Common.c
        { This := p.Reference, Name := name, ResSpec := resSpec, ConfigSpec := configSpec,
          VmFolder := folder.map Folder.Reference } w.remote = ((some res, none), s) →
      (p.CreateVApp m name resSpec configSpec folder w).1 =
        .returned (some (NewVirtualApp p.Common.c res.Returnval), none)) ∧
    -- UpdateConfig
    (∀ r e s,
      m.UpdateConfig p.Common.c (ResourcePool.UpdateConfig.build p name config w).1
        (ResourcePool.UpdateConfig.build p name config w).2.configs w.remote = ((r, some e), s) →
      p.UpdateConfig m name config w =
        (some e, (ResourcePool.UpdateConfig.build p name config w).2.after
          (Call.UpdateConfig p.Common.c (ResourcePool.UpdateConfig.build p name config w).1) s)) ∧
    (∀ r s,
      m.UpdateConfig p.Common.c (ResourcePool.UpdateConfig.build p name config w).1
        (ResourcePool.UpdateConfig.build p name config w).2.configs w.remote = ((r, none), s) →
      (p.UpdateConfig m name config w).1 = none) ∧
    -- DestroyChildren
    (∀ r e s,
      m.DestroyChildren p.Common.c { This := p.Reference } w.remote = ((r, some e), s) →
      p.DestroyChildren m w =
        (some e, w.after (Call.DestroyChildren p.Common.c { This := p.Reference }) s)) ∧
    (∀ r s,
      m.DestroyChildren p.Common.c { This := p.Reference } w.remote = ((r, none), s) →
      (p.DestroyChildren m w).1 = none) ∧
    -- Destroy
    (∀ r e s,
      m.Destroy_Task p.Common.c { This := p.Reference } w.remote = ((r, some e), s) →
      p.Destroy m w =
        (.returned (none, some e),
          w.after (Call.Destroy_Task p.Common.c { This := p.Reference }) s)) ∧
    (∀ res s,
      m.Destroy_Task p.Common.c { This := p.Reference } w.remote = ((some res, none), s) →
      (p.Destroy m w).1 = .returned (some (NewTask p.Common.c res.Returnval), none)) := by
  refine ⟨?_, ?_, ?_, ?_, ?_, ?_, ?_, ?_, ?_, ?_, ?_, ?_, ?_, ?_⟩
  · intro e o s h; rw [Name_unfold, h]
  · intro o s h; rw [Name_unfold, h]
  · intro r e s h; rw [ImportVApp_unfold m p spec folder host w _ rfl, h]; cases r <;> rfl
  · intro res s h; rw [ImportVApp_unfold m p spec folder host w _ rfl, h]
  · intro r e s h; rw [Create_unfold m p name resSpec w _ rfl, h]; cases r <;> rfl
  · intro res s h; rw [Create_unfold m p name resSpec w _ rfl, h]
  · intro r e s h
    rw [CreateVApp_unfold m p name resSpec configSpec folder w _ rfl, h]; cases r <;> rfl
  · intro res s h; rw [CreateVApp_unfold m p name resSpec configSpec folder w _ rfl, h]
  · intro r e s h
    obtain ⟨h1, h2, h3, -, -, -⟩ := UpdateConfig_build_frame p name config w
    rw [UpdateConfig_unfold, h]
    simp only [World.after, h1, h3]
  · intro r s h; rw [UpdateConfig_unfold, h]
  · intro r e s h; rw [DestroyChildren_unfold m p w _ rfl, h]
  · intro r s h; rw [DestroyChildren_unfold m p w _ rfl, h]
  · intro r e s h; rw [Destroy_unfold m p w _ rfl, h]; cases r <;> rfl
  · intro res s h; rw [Destroy_unfold m p w _ rfl, h]

/-- A run of C4: the demo server at call number 1 fails with error 1, and
`Create` returns a nil handle with that error after exactly this call. -/
theorem operations_propagate_transport_error_witness :
    demoPool.Create Remote.demo "child" { Entity := none, rest := (0 : Nat) } (World.demo 1) =
      (.returned (none, some (1 : Nat)),
        (World.demo 1).after (Call.CreateResourcePool (7 : Nat)
          { This := ("resgroup-8" : String), Name := "child",
            Spec := { Entity := none, rest := (0 : Nat) } }) (2 : Nat)) :=
  (operations_propagate_transport_error Remote.demo demoPool (World.demo 1) "ovf" none none
    "child" { Entity := none, rest := (0 : Nat) } "cfg" none).2.2.2.2.1 none 1 2 rfl

/-- C4 as written fails: a remote call may answer with no error and no response.
On that answer `Create` (and likewise `ImportVApp`, `CreateVApp` and `Destroy`)
reads `res.Returnval` through the nil response and panics, so it returns no
error value at all, nil or otherwise. -/
theorem operations_propagate_transport_error_counterexample :
    (Remote.silent.CreateResourcePool (7 : Nat)
        { This := ("resgroup-8" : String), Name := "child",
          Spec := { Entity := none, rest := (0 : Nat) } } (0 : Nat)).1.2 = none ∧
    (demoPool.Create Remote.silent "child" { Entity := none, rest := (0 : Nat) }
        (World.demo 0)).1 = Outcome.panicked ∧
    (¬ ∃ r, (demoPool.Create Remote.silent "child" { Entity := none, rest := (0 : Nat) }
        (World.demo 0)).1 = Outcome.returned (r, none)) ∧
    (demoPool.ImportVApp Remote.silent "ovf" none none (World.demo 0)).1 = Outcome.panicked ∧
    (demoPool.CreateVApp Remote.silent "app" { Entity := none, rest := (0 : Nat) } "cfg" none
        (World.demo 0)).1 = Outcome.panicked ∧
    (demoPool.Destroy Remote.silent (World.demo 0)).1 = Outcome.panicked := by
  refine ⟨rfl, rfl, ?_, rfl, rfl, rfl⟩
  rintro ⟨r, h⟩
  have hp : (demoPool.Create Remote.silent "child" { Entity := none, rest := (0 : Nat) }
      (World.demo 0)).1 = Outcome.panicked := rfl
  rw [hp] at h
  exact Outcome.noConfusion h

/-- C5: the `CreateVApp` request has `This = p.Reference()`, `Name = name`,
`ResSpec = resSpec` and `ConfigSpec = configSpec`; its `VmFolder` is absent for a
nil folder and `folder.Reference()` otherwise; and when the remote call succeeds
the method returns the `VirtualApp` handle that refers to the `Returnval` of the
response and uses the client of the pool, with a nil error. -/
theorem CreateVApp_request_and_handle (m : Remote V σ) (p : ResourcePool V) (name : String)
    (resSpec : types.ResourceConfigSpec V) (configSpec : V.VAppConfigSpec)
    (folder : Option (Folder V)) (w : World V σ) :
    (p.CreateVApp m name resSpec configSpec folder w).2.sent =
      w.sent ++ [Call.CreateVApp p.Common.c
        { This := p.Reference, Name := name, ResSpec := resSpec, ConfigSpec := configSpec,
          VmFolder := folder.map Folder.Reference }] ∧
    (folder = none → (p.CreateVApp m name resSpec configSpec folder w).2.sent =
      w.sent ++ [Call.CreateVApp p.Common.c
        { This := p.Reference, Name := name, ResSpec := resSpec, ConfigSpec := configSpec,
          VmFolder := none }]) ∧
    (∀ f, folder = some f → (p.CreateVApp m name resSpec configSpec folder w).2.sent =
      w.sent ++ [Call.CreateVApp p.Common.c
        { This := p.Reference, Name := name, ResSpec := resSpec, ConfigSpec := configSpec,
          VmFolder := some f.Reference }]) ∧
    (∀ res s,
      m.CreateVApp p.Common.c
        { This := p.Reference, Name := name, ResSpec := resSpec, ConfigSpec := configSpec,
          VmFolder := folder.map Folder.Reference } w.remote = ((some res, none), s) →
      ∃ v, (p.CreateVApp m name resSpec configSpec folder w).1 = .returned (some v, none) ∧
        v = NewVirtualApp p.Common.c res.Returnval ∧
        v.Common.Reference = res.Returnval ∧ v.Common.c = p.Common.c) := by
  have hsent : (p.CreateVApp m name resSpec configSpec folder w).2.sent =
      w.sent ++ [Call.CreateVApp p.Common.c
        { This := p.Reference, Name := name, ResSpec := resSpec, ConfigSpec := configSpec,
          VmFolder := folder.map Folder.Reference }] := by
    rw [CreateVApp_unfold m p name resSpec configSpec folder w _ rfl]
    rfl
  refine ⟨hsent, ?_, ?_, ?_⟩
  · intro hf; rw [hsent, hf]; rfl
  · intro f hf; rw [hsent, hf]; rfl
  · intro res s h
    refine ⟨NewVirtualApp p.Common.c res.Returnval, ?_, rfl, rfl, rfl⟩
    rw [CreateVApp_unfold m p name resSpec configSpec folder w _ rfl, h]

/-- A run of C5: with a folder given and the demo server at an even call number,
the request carries the reference of the folder and the handle the returned one. -/
theorem CreateVApp_request_and_handle_witness :
    (demoPool.CreateVApp Remote.demo "app" { Entity := none, rest := (0 : Nat) } "cfg"
        (some { Common := { c := (7 : Nat), r := ("group-v3" : String) } }) (World.demo 0)).2.sent =
      [Call.CreateVApp (7 : Nat)
        { This := ("resgroup-8" : String), Name := "app",
          ResSpec := { Entity := none, rest := (0 : Nat) }, ConfigSpec := ("cfg" : String),
          VmFolder := some ("group-v3" : String) }] ∧
    ∃ v, (demoPool.CreateVApp Remote.demo "app" { Entity := none, rest := (0 : Nat) } "cfg"
        (some { Common := { c := (7 : Nat), r := ("group-v3" : String) } }) (World.demo 0)).1 =
        .returned (some v, none) ∧
      v = NewVirtualApp (7 : Nat) ("vapp-app" : String) ∧
      v.Common.Reference = ("vapp-app" : String) ∧ v.Common.c = (7 : Nat) :=
  ⟨(CreateVApp_request_and_handle Remote.demo demoPool "app" { Entity := none, rest := (0 : Nat) }
      "cfg" (some { Common := { c := (7 : Nat), r := ("group-v3" : String) } }) (World.demo 0)).1,
   (CreateVApp_request_and_handle Remote.demo demoPool "app" { Entity := none, rest := (0 : Nat) }
      "cfg" (some { Common := { c := (7 : Nat), r := ("group-v3" : String) } })
      (World.demo 0)).2.2.2 { Returnval := ("vapp-app" : String) } 1 rfl⟩

/-- C6: `Create` sends a `CreateResourcePool` request with `This = p.Reference()`,
`Name = name` and `Spec = spec`; when the remote call succeeds with `Returnval` r
it returns, with a nil error, the handle `NewResourcePool(p.c, r)`, whose
reference is `r` (the new child, not the parent), whose client is the client of
the pool and whose `InventoryPath` is empty. -/
theorem Create_request_and_handle (m : Remote V σ) (p : ResourcePool V) (name : String)
    (spec : types.ResourceConfigSpec V) (w : World V σ) :
    (p.Create m name spec w).2.sent =
      w.sent ++ [Call.CreateResourcePool p.Common.c
        { This := p.Reference, Name := name, Spec := spec }] ∧
    (∀ res s,
      m.CreateResourcePool p.Common.c { This := p.Reference, Name := name, Spec := spec }
        w.remote = ((some res, none), s) →
      ∃ q, (p.Create m name spec w).1 = .returned (some q, none) ∧
        q = NewResourcePool p.Common.c res.Returnval ∧
        q.Reference = res.Returnval ∧ q.Common.c = p.Common.c ∧ q.InventoryPath = "") := by
  refine ⟨?_, ?_⟩
  · rw [Create_unfold m p name spec w _ rfl]
    rfl
  · intro res s h
    refine ⟨NewResourcePool p.Common.c res.Returnval, ?_, rfl, rfl, rfl, rfl⟩
    rw [Create_unfold m p name spec w _ rfl, h]

/-- A run of C6: the demo server at an even call number answers `pool-child`,
and the handle returned refers to it, not to the parent `resgroup-8`. -/
theorem Create_request_and_handle_witness :
    ∃ q, (demoPool.Create Remote.demo "child" { Entity := none, rest := (0 : Nat) }
        (World.demo 0)).1 = .returned (some q, none) ∧
      q = NewResourcePool (7 : Nat) ("pool-child" : String) ∧
      q.Reference = ("pool-child" : String) ∧ q.Common.c = (7 : Nat) ∧ q.InventoryPath = "" :=
  (Create_request_and_handle Remote.demo demoPool "child" { Entity := none, rest := (0 : Nat) }
    (World.demo 0)).2 { Returnval := ("pool-child" : String) } 1 rfl

/-- C7: `Destroy` sends a `Destroy_Task` request whose `This` is `p.Reference()`;
when the remote call succeeds with `Returnval` t it returns a task handle whose
reference is `t` and whose client is the client of the pool, with a nil error;
and the world it leaves is the one right after that single call, so nothing
waits for the task. -/
theorem Destroy_request_and_handle (m : Remote V σ) (p : ResourcePool V) (w : World V σ) :
    (p.Destroy m w).2.sent =
      w.sent ++ [Call.Destroy_Task p.Common.c { This := p.Reference }] ∧
    (∀ res s,
      m.Destroy_Task p.Common.c { This := p.Reference } w.remote = ((some res, none), s) →
      ∃ t, p.Destroy m w =
          (.returned (some t, none),
            w.after (Call.Destroy_Task p.Common.c { This := p.Reference }) s) ∧
        t.Common.Reference = res.Returnval ∧ t.Common.c = p.Common.c) := by
  refine ⟨?_, ?_⟩
  · rw [Destroy_unfold m p w _ rfl]
    rfl
  · intro res s h
    refine ⟨NewTask p.Common.c res.Returnval, ?_, rfl, rfl⟩
    rw [Destroy_unfold m p w _ rfl, h]

/-- A run of C7: the demo server at an even call number answers with a task
reference, and `Destroy` returns a handle on it after one call. -/
theorem Destroy_request_and_handle_witness :
    ∃ t, demoPool.Destroy Remote.demo (World.demo 0) =
        (.returned (some t, none),
          (World.demo 0).after (Call.Destroy_Task (7 : Nat) { This := ("resgroup-8" : String) })
            (1 : Nat)) ∧
      t.Common.Reference = ("task-resgroup-8" : String) ∧ t.Common.c = (7 : Nat) :=
  (Destroy_request_and_handle Remote.demo demoPool (World.demo 0)).2
    { Returnval := ("task-resgroup-8" : String) } 1 rfl

/-- C8: `Name` issues one property retrieval, for `p.Reference()` and exactly the
property list `["name"]`; when the retrieval succeeds it returns the `Name`
field of the retrieved object with a nil error. -/
theorem Name_request_and_result (m : Remote V σ) (p : ResourcePool V) (w : World V σ) :
    (p.Name m w).2.sent = w.sent ++ [Call.Properties p.Common p.Reference ["name"]] ∧
    (∀ o s,
      m.Properties p.Common p.Reference ["name"] mo.ResourcePool.zero w.remote = ((none, o), s) →
      p.Name m w = ((o.Name, none), w.after (Call.Properties p.Common p.Reference ["name"]) s)) := by
  refine ⟨?_, ?_⟩
  · rw [Name_unfold]
    rfl
  · intro o s h
    rw [Name_unfold, h]

/-- A run of C8: the demo server at an even call number fills in the name. -/
theorem Name_request_and_result_witness :
    demoPool.Name Remote.demo (World.demo 0) =
      (("name-of-resgroup-8", none),
        (World.demo 0).after (Call.Properties demoPool.Common ("resgroup-8" : String) ["name"])
          (1 : Nat)) :=
  (Name_request_and_result Remote.demo demoPool (World.demo 0)).2
    { Name := "name-of-resgroup-8", rest := () } 1 rfl

/-- C9: `String()` is `p.Common.String()` when `InventoryPath` is empty, and
otherwise the string form of `p.Common` (its `%v` rendering), the separator
` @ ` and `InventoryPath`; hence the string of a pool built by
`NewResourcePool(c, ref)` is the string of its `Common` part, which is
`NewCommon(c, ref)`, with nothing appended. -/
theorem String_spec (CommonString CommonFormat : Common V → String) (p : ResourcePool V) :
    (p.InventoryPath = "" → p.String CommonString CommonFormat = CommonString p.Common) ∧
    (p.InventoryPath ≠ "" →
      p.String CommonString CommonFormat =
        CommonFormat p.Common ++ " @ " ++ p.InventoryPath) ∧
    (∀ c ref,
      (NewResourcePool c ref).String CommonString CommonFormat =
        CommonString (NewCommon c ref) ∧
      (NewResourcePool c ref : ResourcePool V).Common = NewCommon c ref ∧
      (NewResourcePool c ref : ResourcePool V).InventoryPath = "") := by
  refine ⟨?_, ?_, ?_⟩
  · intro h
    simp only [ResourcePool.String, h, if_true]
  · intro h
    simp only [ResourcePool.String, h, if_false]
    exact Sprintf_v_at_v _ _
  · intro c ref
    exact ⟨rfl, rfl, rfl⟩

/-- A run of C9 on the demo pool, whose `InventoryPath` is not empty, with the
`String` method of `Common` used for `%v` as well. -/
theorem String_spec_witness :
    demoPool.String (fun x => "ResourcePool:" ++ x.r) (fun x => "ResourcePool:" ++ x.r) =
      "ResourcePool:resgroup-8 @ /dc/host/pool" :=
  (String_spec (fun x => "ResourcePool:" ++ x.r) (fun x => "ResourcePool:" ++ x.r)
    demoPool).2.1 (by decide)

/-- C10: every request a `ResourcePool` operation sends is addressed to the pool
itself, and the operations leave the handles alone.  For `ImportVApp`, `Create`,
`CreateVApp`, `UpdateConfig`, `DestroyChildren` and `Destroy` (and the retrieval
of `Name`) the calls added to the trace are one call whose target is
`p.Reference()`, whatever folder, host or config is passed; and after each of
the seven operations, on success or on error, the store of pool handles is what
it was, so a handle keeps its reference and its `InventoryPath`. -/
theorem requests_target_pool_and_handles_unchanged (m : Remote V σ) (p : ResourcePool V)
    (w : World V σ) (spec : V.BaseImportSpec) (folder : Option (Folder V))
    (host : Option (HostSystem V)) (name : String) (resSpec : types.ResourceConfigSpec V)
    (configSpec : V.VAppConfigSpec) (config : ConfigPtr) :
    (((p.ImportVApp m spec folder host w).2.sent.drop w.sent.length).map Call.target =
        [p.Reference] ∧
      ((p.Create m name resSpec w).2.sent.drop w.sent.length).map Call.target =
        [p.Reference] ∧
      ((p.CreateVApp m name resSpec configSpec folder w).2.sent.drop w.sent.length).map
        Call.target = [p.Reference] ∧
      ((p.UpdateConfig m name config w).2.sent.drop w.sent.length).map Call.target =
        [p.Reference] ∧
      ((p.DestroyChildren m w).2.sent.drop w.sent.length).map Call.target = [p.Reference] ∧
      ((p.Destroy m w).2.sent.drop w.sent.length).map Call.target = [p.Reference] ∧
      ((p.Name m w).2.sent.drop w.sent.length).map Call.target = [p.Reference]) ∧
    ((p.ImportVApp m spec folder host w).2.pools = w.pools ∧
      (p.Create m name resSpec w).2.pools = w.pools ∧
      (p.CreateVApp m name resSpec configSpec folder w).2.pools = w.pools ∧
      (p.UpdateConfig m name config w).2.pools = w.pools ∧
      (p.DestroyChildren m w).2.pools = w.pools ∧
      (p.Destroy m w).2.pools = w.pools ∧
      (p.Name m w).2.pools = w.pools) := by
  obtain ⟨-, -, -, -, hthis, -⟩ := UpdateConfig_build_frame p name config w
  refine ⟨⟨?_, ?_, ?_, ?_, ?_, ?_, ?_⟩, ⟨?_, ?_, ?_, ?_, ?_, ?_, ?_⟩⟩
  · rw [ImportVApp_unfold m p spec folder host w _ rfl]
    simp [World.after, Call.target]
  · rw [Create_unfold m p name resSpec w _ rfl]
    simp [World.after, Call.target]
  · rw [CreateVApp_unfold m p name resSpec configSpec folder w _ rfl]
    simp [World.after, Call.target]
  · rw [UpdateConfig_unfold]
    simp [Call.target, hthis]
  · rw [DestroyChildren_unfold m p w _ rfl]
    simp [World.after, Call.target]
  · rw [Destroy_unfold m p w _ rfl]
    simp [World.after, Call.target]
  · rw [Name_unfold]
    simp [World.after, Call.target]
  · rw [ImportVApp_unfold m p spec folder host w _ rfl]; rfl
  · rw [Create_unfold m p name resSpec w _ rfl]; rfl
  · rw [CreateVApp_unfold m p name resSpec configSpec folder w _ rfl]; rfl
  · rw [UpdateConfig_unfold]
  · rw [DestroyChildren_unfold m p w _ rfl]; rfl
  · rw [Destroy_unfold m p w _ rfl]; rfl
  · rw [Name_unfold]; rfl

/-- A run of C10: `UpdateConfig` on the second demo cell, whose `Entity` is
`resgroup-1`, and `ImportVApp` with a folder both address the pool `resgroup-8`,
and the handle in the store stays as it was. -/
theorem requests_target_pool_and_handles_unchanged_witness :
    ((demoPool.UpdateConfig Remote.demo "x" (some 1) (World.demo 0)).2.sent.drop 0).map
        Call.target = [("resgroup-8" : String)] ∧
    ((demoPool.ImportVApp Remote.demo "ovf"
        (some { Common := { c := (7 : Nat), r := ("group-v3" : String) } }) none
        (World.demo 0)).2.sent.drop 0).map Call.target = [("resgroup-8" : String)] ∧
    (demoPool.UpdateConfig Remote.demo "x" (some 1) (World.demo 0)).2.pools = [demoPool] :=
  ⟨(requests_target_pool_and_handles_unchanged Remote.demo demoPool (World.demo 0) "ovf"
      (some { Common := { c := (7 : Nat), r := ("group-v3" : String) } }) none "x"
      { Entity := none, rest := (0 : Nat) } "cfg" (some 1)).1.2.2.2.1,
   (requests_target_pool_and_handles_unchanged Remote.demo demoPool (World.demo 0) "ovf"
      (some { Common := { c := (7 : Nat), r := ("group-v3" : String) } }) none "x"
      { Entity := none, rest := (0 : Nat) } "cfg" (some 1)).1.1,
   (requests_target_pool_and_handles_unchanged Remote.demo demoPool (World.demo 0) "ovf"
      (some { Common := { c := (7 : Nat), r := ("group-v3" : String) } }) none "x"
      { Entity := none, rest := (0 : Nat) } "cfg" (some 1)).2.2.2.2.1⟩

end Govmomi
